import Mathlib

/-!
Verification of the ATS resume-analyzer orchestration pipeline (`src/app.py`).

The embedding models:
  * Python's `json.loads` over the JSON grammar it actually accepts
    (including the `NaN` / `Infinity` extensions and dict last-wins
    duplicate-key semantics), as a total fueled parser on character lists;
  * Python truthiness of decoded JSON values, `dict.get` with a default,
    and `", ".join` applied to a decoded value (string → joins its
    characters, list of strings → joins the elements, dict → joins the
    keys, anything else → TypeError);
  * the `main` request handler of `app.py` as a pure function from a
    request environment (inputs plus oracles for the external calls:
    the secret store, the env var, `configure_genai`, `extract_pdf_text`,
    `get_gemini_response`) to a trace of UI events, external-call counts,
    the session `processing` flag, and the optional analysis result.

Static page chrome (sidebar, titles, the input widgets themselves) is not
modelled as events: only the per-request dynamic output of the handler is.
-/

namespace ATS

/-- A decoded JSON value, as produced by Python's `json.loads`.  Numbers are
exact `mantissa × 10 ^ exponent`; `nanV` / `infV` model the non-standard
`NaN` / `Infinity` / `-Infinity` literals CPython's `json` accepts. -/
inductive Json where
  | null
  | bool (b : Bool)
  | num (mantissa : Int) (exponent : Int)
  | str (s : String)
  | arr (elems : List Json)
  | obj (members : List (String × Json))
  | nanV
  | infV (neg : Bool)
deriving Repr

/-- Python truthiness of a decoded JSON value (`bool(v)`). -/
def Json.truthy : Json → Bool
  | .null => false
  | .bool b => b
  | .num m _ => m != 0
  | .str s => s != ""
  | .arr l => !l.isEmpty
  | .obj kvs => !kvs.isEmpty
  | .nanV => true
  | .infV _ => true

/-- JSON whitespace (the only characters `json.loads` skips between tokens). -/
def isJsonWs (c : Char) : Bool :=
  c == ' ' || c == '\t' || c == '\n' || c == '\r'

def skipWs : List Char → List Char
  | [] => []
  | c :: cs => if isJsonWs c then skipWs cs else c :: cs

def takeDigits : List Char → List Char × List Char
  | [] => ([], [])
  | c :: cs =>
    if c.isDigit then
      let (ds, r) := takeDigits cs
      (c :: ds, r)
    else ([], c :: cs)

def digitsToNat (ds : List Char) : Nat :=
  ds.foldl (fun a c => a * 10 + (c.toNat - 48)) 0

def hexVal (c : Char) : Option Nat :=
  if '0' ≤ c ∧ c ≤ '9' then some (c.toNat - 48)
  else if 'a' ≤ c ∧ c ≤ 'f' then some (c.toNat - 87)
  else if 'A' ≤ c ∧ c ≤ 'F' then some (c.toNat - 55)
  else none

def parseHex4 : List Char → Option (Nat × List Char)
  | a :: b :: c :: d :: rest =>
    match hexVal a, hexVal b, hexVal c, hexVal d with
    | some x, some y, some z, some w => some (((x * 16 + y) * 16 + z) * 16 + w, rest)
    | _, _, _, _ => none
  | _ => none

/-- Consume an expected literal suffix (e.g. the `rue` of `true`). -/
def matchLit : List Char → List Char → Option (List Char)
  | [], cs => some cs
  | _, [] => none
  | l :: ls, c :: cs => if l = c then matchLit ls cs else none

/-- Insert a key into a decoded object the way a Python dict does when
`json.loads` builds it: a repeated key keeps its first position but takes
the last value. -/
def objInsert (kvs : List (String × Json)) (k : String) (v : Json) :
    List (String × Json) :=
  if kvs.any (fun p => p.1 = k) then
    kvs.map (fun p => if p.1 = k then (k, v) else p)
  else kvs ++ [(k, v)]

/-- Parse the remainder of a JSON string literal (after the opening quote),
accumulating decoded characters.  Mirrors `json.loads` in strict mode:
raw control characters are rejected; `\uXXXX` escapes are decoded, with
surrogate pairs combined (a lone surrogate degrades to `Char.ofNat`'s
fallback, a modelling boundary: Lean `Char` has no surrogates). -/
def parseStrRest : Nat → List Char → List Char → Option (String × List Char)
  | 0, _, _ => none
  | _ + 1, _, [] => none
  | fuel + 1, acc, c :: rest =>
    if c = '"' then some (String.mk acc.reverse, rest)
    else if c = '\\' then
      match rest with
      | [] => none
      | e :: rest2 =>
        if e = '"' then parseStrRest fuel ('"' :: acc) rest2
        else if e = '\\' then parseStrRest fuel ('\\' :: acc) rest2
        else if e = '/' then parseStrRest fuel ('/' :: acc) rest2
        else if e = 'b' then parseStrRest fuel ('\x08' :: acc) rest2
        else if e = 'f' then parseStrRest fuel ('\x0c' :: acc) rest2
        else if e = 'n' then parseStrRest fuel ('\n' :: acc) rest2
        else if e = 'r' then parseStrRest fuel ('\r' :: acc) rest2
        else if e = 't' then parseStrRest fuel ('\t' :: acc) rest2
        else if e = 'u' then
          match parseHex4 rest2 with
          | none => none
          | some (n, rest3) =>
            if 0xD800 ≤ n ∧ n ≤ 0xDBFF then
              match rest3 with
              | '\\' :: 'u' :: rest4 =>
                match parseHex4 rest4 with
                | some (n2, rest5) =>
                  if 0xDC00 ≤ n2 ∧ n2 ≤ 0xDFFF then
                    parseStrRest fuel
                      (Char.ofNat (0x10000 + (n - 0xD800) * 0x400 + (n2 - 0xDC00)) :: acc)
                      rest5
                  else parseStrRest fuel (Char.ofNat n :: acc) rest3
                | none => parseStrRest fuel (Char.ofNat n :: acc) rest3
              | _ => parseStrRest fuel (Char.ofNat n :: acc) rest3
            else parseStrRest fuel (Char.ofNat n :: acc) rest3
        else none
    else if c.toNat < 0x20 then none
    else parseStrRest fuel (c :: acc) rest

/-- Parse a JSON number whose first character (a digit) is at the head of
`cs`; `neg` records a consumed leading minus.  Follows the RFC 8259 number
grammar `json.loads` enforces (`01`, `1.`, `.5`, `1e` all rejected). -/
def parseNum (neg : Bool) (cs : List Char) : Option (Json × List Char) :=
  match cs with
  | [] => none
  | c :: rest =>
    if !c.isDigit then none
    else
      let (intDs, r1) := if c = '0' then ([c], rest) else takeDigits (c :: rest)
      let fracStep : Option (List Char × List Char) :=
        match r1 with
        | '.' :: r =>
          let (ds, rr) := takeDigits r
          if ds.isEmpty then none else some (ds, rr)
        | _ => some ([], r1)
      match fracStep with
      | none => none
      | some (fracDs, r2) =>
        let expStep : Option (Bool × List Char × List Char) :=
          match r2 with
          | 'e' :: r => some (false, r, [])
          | 'E' :: r => some (false, r, [])
          | _ => none
        match expStep with
        | none =>
          let mNat : Nat := digitsToNat (intDs ++ fracDs)
          let m : Int := if neg then -(mNat : Int) else (mNat : Int)
          some (.num m (-(fracDs.length : Int)), r2)
        | some (_, r, _) =>
          let (expNeg, r3) :=
            match r with
            | '+' :: rr => (false, rr)
            | '-' :: rr => (true, rr)
            | _ => (false, r)
          let (expDs, r4) := takeDigits r3
          if expDs.isEmpty then none
          else
            let mNat : Nat := digitsToNat (intDs ++ fracDs)
            let m : Int := if neg then -(mNat : Int) else (mNat : Int)
            let eAbs : Int := (digitsToNat expDs : Int)
            let e : Int := (if expNeg then -eAbs else eAbs) - (fracDs.length : Int)
            some (.num m e, r4)

mutual

/-- Parse one JSON value starting at `cs` (leading whitespace allowed),
returning it with the unconsumed remainder. -/
def parseVal : Nat → List Char → Option (Json × List Char)
  | 0, _ => none
  | fuel + 1, cs =>
    match skipWs cs with
    | [] => none
    | c :: rest =>
      if c = '"' then
        match parseStrRest fuel [] rest with
        | some (s, r) => some (.str s, r)
        | none => none
      else if c = '[' then
        match skipWs rest with
        | ']' :: r => some (.arr [], r)
        | cs2 => parseArrLoop fuel cs2 []
      else if c = '\x7b' then
        match skipWs rest with
        | '\x7d' :: r => some (.obj [], r)
        | cs2 => parseObjLoop fuel cs2 []
      else if c = 't' then
        (matchLit ['r', 'u', 'e'] rest).map (fun r => (.bool true, r))
      else if c = 'f' then
        (matchLit ['a', 'l', 's', 'e'] rest).map (fun r => (.bool false, r))
      else if c = 'n' then
        (matchLit ['u', 'l', 'l'] rest).map (fun r => (.null, r))
      else if c = 'N' then
        (matchLit ['a', 'N'] rest).map (fun r => (.nanV, r))
      else if c = 'I' then
        (matchLit ['n', 'f', 'i', 'n', 'i', 't', 'y'] rest).map
          (fun r => (.infV false, r))
      else if c = '-' then
        match rest with
        | 'I' :: r2 =>
          (matchLit ['n', 'f', 'i', 'n', 'i', 't', 'y'] r2).map
            (fun r => (.infV true, r))
        | _ => parseNum true rest
      else if c.isDigit then parseNum false (c :: rest)
      else none

/-- Elements of a non-empty array, positioned at the start of an element. -/
def parseArrLoop : Nat → List Char → List Json → Option (Json × List Char)
  | 0, _, _ => none
  | fuel + 1, cs, acc =>
    match parseVal fuel cs with
    | none => none
    | some (v, r) =>
      match skipWs r with
      | ',' :: r2 => parseArrLoop fuel r2 (v :: acc)
      | ']' :: r2 => some (.arr (v :: acc).reverse, r2)
      | _ => none

/-- Members of a non-empty object, positioned at the start of a key. -/
def parseObjLoop : Nat → List Char → List (String × Json) →
    Option (Json × List Char)
  | 0, _, _ => none
  | fuel + 1, cs, acc =>
    match skipWs cs with
    | '"' :: r =>
      match parseStrRest fuel [] r with
      | none => none
      | some (k, r2) =>
        match skipWs r2 with
        | ':' :: r3 =>
          match parseVal fuel r3 with
          | none => none
          | some (v, r4) =>
            match skipWs r4 with
            | ',' :: r5 => parseObjLoop fuel r5 (objInsert acc k v)
            | '\x7d' :: r5 => some (.obj (objInsert acc k v), r5)
            | _ => none
        | _ => none
    | _ => none

end

/-- `json.loads`: parse a complete document; trailing non-whitespace is an
error ("Extra data"). -/
def Json.parse (s : String) : Option Json :=
  let cs := s.toList
  match parseVal (2 * cs.length + 2) cs with
  | some (v, r) => if skipWs r = [] then some v else none
  | none => none

/-- Key lookup with default on a decoded object: `dict.get(k, d)`.  The
member list is duplicate-free by construction (`objInsert`), so first
match is the dict entry. -/
def objGet : List (String × Json) → String → Json → Json
  | [], _, d => d
  | (k2, v) :: rest, k, d => if k2 = k then v else objGet rest k d

/-- Membership-only lookup, for stating key absence: `k in dict`. -/
def objLookup : List (String × Json) → String → Option Json
  | [], _ => none
  | (k2, v) :: rest, k => if k2 = k then some v else objLookup rest k

/-- All-strings view of a decoded array, as `str.join` needs. -/
def asStrList : List Json → Option (List String)
  | [] => some []
  | .str s :: rest => (asStrList rest).map (fun l => s :: l)
  | _ => none

/-- Python `sep.join(v)` on a decoded JSON value: a string joins its
characters, a list of strings joins the elements, a dict joins its keys
(always strings here), anything else raises `TypeError`. -/
def joinPy (sep : String) (v : Json) : Except String String :=
  match v with
  | .str s => .ok (String.intercalate sep (s.toList.map Char.toString))
  | .arr l =>
    match asStrList l with
    | some ss => .ok (String.intercalate sep ss)
    | none => .error "sequence item: expected str instance"
  | .obj kvs => .ok (String.intercalate sep (kvs.map Prod.fst))
  | _ => .error "can only join an iterable"

/-- One dynamic UI emission of the request handler (`st.error`,
`st.warning`, `st.success`, `st.metric`, `st.subheader`, `st.write`). -/
inductive UIEvent where
  | errorMsg (msg : String)
  | warningMsg (msg : String)
  | successMsg (msg : String)
  | metricE (label : String) (value : Json)
  | subheaderMsg (s : String)
  | writeStr (s : String)
  | writeJson (v : Json)
deriving Repr

/-- The three fields extracted from a parsed model response
(spec entity `AnalysisResult`). -/
structure AnalysisResult where
  jdMatch : Json
  missingKeywords : Json
  profileSummary : Json
deriving Repr

/-- Lines 106–110 of `app.py`: truthy `missing_keywords` is joined with
`", "` (which may raise, propagating to the outer handler); falsy yields
the fixed message. -/
def renderMissingKeywords (mkw : Json) : Except String UIEvent :=
  if mkw.truthy then
    match joinPy ", " mkw with
    | .ok s => .ok (.writeStr s)
    | .error e => .error e
  else .ok (.writeStr "No critical missing keywords found!")

/-- Lines 101–114 of `app.py`: the result-display block after a successful
`json.loads`.  Returns the events emitted before any exception, and either
the completed `AnalysisResult` or the exception that escaped to the outer
handler (`AttributeError` from `.get` on a non-dict, `TypeError` from
`join`). -/
def displayResults (rj : Json) : List UIEvent × Except String AnalysisResult :=
  match rj with
  | .obj kvs =>
    let matchPct := objGet kvs "JD Match" (.str "N/A")
    let evs := [UIEvent.metricE "Match Score" matchPct,
                UIEvent.subheaderMsg "Missing Keywords"]
    let mkw := objGet kvs "MissingKeywords" (.arr [])
    match renderMissingKeywords mkw with
    | .error e => (evs, .error e)
    | .ok kwEvent =>
      let summ := objGet kvs "Profile Summary" (.str "No summary available")
      (evs ++ [kwEvent, UIEvent.subheaderMsg "Profile Summary",
               UIEvent.writeJson summ],
       .ok { jdMatch := matchPct, missingKeywords := mkw,
             profileSummary := summ })
  | _ => ([], .error "object has no attribute get")

/-- `get_api_key` of `app.py`: the secret-store lookup result when it did
not raise, otherwise the environment variable (after `load_dotenv`). -/
def get_api_key (secretsKey envKey : Option String) : Option String :=
  match secretsKey with
  | some k => some k
  | none => envKey

/-- Python `not x` on an optional string: `None` and `""` are falsy. -/
def strOptFalsy : Option String → Bool
  | none => true
  | some s => s == ""

/-- One execution of the request handler: the two user inputs, the session
state on entry, and oracles for every external effect. -/
structure RunInput where
  /-- `st.secrets` lookup: `some v` when it yields `v`, `none` when it
  raises (the bare `except` catches anything). -/
  secretsKey : Option String
  /-- `os.getenv("GOOGLE_API_KEY")` after `load_dotenv()`. -/
  envKey : Option String
  /-- `configure_genai`: `some msg` when it raises `Exception(msg)`. -/
  configureError : Option String
  /-- `st.session_state.processing` on entry (after `init_session_state`). -/
  processing0 : Bool
  /-- The analyze button was pressed this run. -/
  buttonClicked : Bool
  /-- The job-description text area value. -/
  jd : String
  /-- The uploaded resume file, when present. -/
  uploadedFile : Option Unit
  /-- `extract_pdf_text(uploaded_file)`: extracted text or raised message. -/
  extractResult : Except String String
  /-- `get_gemini_response(input_prompt)`: raw text or raised message. -/
  geminiResult : Except String String

/-- Observable outcome of one handler execution. -/
structure RunOutput where
  /-- Dynamic UI events, in emission order (static chrome elided). -/
  events : List UIEvent
  /-- `st.session_state.processing` after the handler returns. -/
  processing : Bool
  /-- Line 77 (`st.session_state.processing = True`) executed. -/
  guardSet : Bool
  configureCalls : Nat
  extractCalls : Nat
  promptCalls : Nat
  modelCalls : Nat
  /-- The `AnalysisResult`, when the display block completed. -/
  result : Option AnalysisResult
deriving Repr

/-- `main()` of `app.py` as a pure function of the request environment.
Mirrors the source line by line: key check (29–31), `configure_genai`
(33–37), button guard (68), input validation (69–75), guard set (77), the
`try`-block pipeline (79–114) with the inner JSON-parse `try` (91–95), the
catch-all `except` (116–117) and the `finally` reset (119–120). -/
def main (inp : RunInput) : RunOutput :=
  let api_key := get_api_key inp.secretsKey inp.envKey
  if strOptFalsy api_key then
    { events := [.errorMsg "API Key not found. Please check your configuration."],
      processing := inp.processing0, guardSet := false,
      configureCalls := 0, extractCalls := 0, promptCalls := 0,
      modelCalls := 0, result := none }
  else
    match inp.configureError with
    | some msg =>
      { events := [.errorMsg ("Failed to configure API: " ++ msg)],
        processing := inp.processing0, guardSet := false,
        configureCalls := 1, extractCalls := 0, promptCalls := 0,
        modelCalls := 0, result := none }
    | none =>
      if inp.buttonClicked && !inp.processing0 then
        if inp.jd = "" then
          { events := [.warningMsg "Please provide a job description."],
            processing := inp.processing0, guardSet := false,
            configureCalls := 1, extractCalls := 0, promptCalls := 0,
            modelCalls := 0, result := none }
        else
          match inp.uploadedFile with
          | none =>
            { events := [.warningMsg "Please upload a resume in PDF format."],
              processing := inp.processing0, guardSet := false,
              configureCalls := 1, extractCalls := 0, promptCalls := 0,
              modelCalls := 0, result := none }
          | some _ =>
            match inp.extractResult with
            | .error e =>
              { events := [.errorMsg ("An error occurred: " ++ e)],
                processing := false, guardSet := true,
                configureCalls := 1, extractCalls := 1, promptCalls := 0,
                modelCalls := 0, result := none }
            | .ok _resume_text =>
              match inp.geminiResult with
              | .error e =>
                { events := [.errorMsg ("An error occurred: " ++ e)],
                  processing := false, guardSet := true,
                  configureCalls := 1, extractCalls := 1, promptCalls := 1,
                  modelCalls := 1, result := none }
              | .ok response =>
                match Json.parse response with
                | none =>
                  { events := [.errorMsg "Error parsing response. Please try again."],
                    processing := false, guardSet := true,
                    configureCalls := 1, extractCalls := 1, promptCalls := 1,
                    modelCalls := 1, result := none }
                | some rj =>
                  match displayResults rj with
                  | (devs, .error e) =>
                    { events := .successMsg "✨ Analysis Complete!" ::
                        (devs ++ [.errorMsg ("An error occurred: " ++ e)]),
                      processing := false, guardSet := true,
                      configureCalls := 1, extractCalls := 1, promptCalls := 1,
                      modelCalls := 1, result := none }
                  | (devs, .ok a) =>
                    { events := .successMsg "✨ Analysis Complete!" :: devs,
                      processing := false, guardSet := true,
                      configureCalls := 1, extractCalls := 1, promptCalls := 1,
                      modelCalls := 1, result := some a }
      else
        { events := [], processing := inp.processing0, guardSet := false,
          configureCalls := 1, extractCalls := 0, promptCalls := 0,
          modelCalls := 0, result := none }

/-- A fully wired request environment carrying a given raw model response,
for instantiating the theorems at concrete inputs. -/
def sampleRun (resp : String) : RunInput :=
  { secretsKey := some "key", envKey := none, configureError := none,
    processing0 := false, buttonClicked := true, jd := "job",
    uploadedFile := some (), extractResult := .ok "resume text",
    geminiResult := .ok resp }

/-!  ## Helper lemmas  -/

theorem objLookup_none_objGet (kvs : List (String × Json)) (k : String)
    (d : Json) (h : objLookup kvs k = none) : objGet kvs k d = d := by
  induction kvs with
  | nil => rfl
  | cons p rest ih =>
    obtain ⟨k2, v⟩ := p
    by_cases hk : k2 = k
    · simp [objLookup, hk] at h
    · simp only [objLookup, if_neg hk] at h
      simp only [objGet, if_neg hk]
      exact ih h

theorem renderMissingKeywords_ok_shape (mkw : Json) (ev : UIEvent)
    (h : renderMissingKeywords mkw = .ok ev) : ∃ s, ev = .writeStr s := by
  unfold renderMissingKeywords at h
  split at h
  · cases hj : joinPy ", " mkw with
    | ok s =>
      rw [hj] at h
      exact ⟨s, (Except.ok.injEq _ _).mp h.symm⟩
    | error e => rw [hj] at h; cases h
  · exact ⟨_, (Except.ok.injEq _ _).mp h.symm⟩

theorem displayResults_ok_shape (rj : Json) (devs : List UIEvent)
    (a : AnalysisResult) (h : displayResults rj = (devs, .ok a)) :
    ∃ s, devs = [.metricE "Match Score" a.jdMatch,
                 .subheaderMsg "Missing Keywords", .writeStr s,
                 .subheaderMsg "Profile Summary",
                 .writeJson a.profileSummary] := by
  cases rj with
  | obj kvs =>
    simp only [displayResults] at h
    cases hr : renderMissingKeywords (objGet kvs "MissingKeywords" (.arr []))
      with
    | error e => rw [hr] at h; simp at h
    | ok ev =>
      obtain ⟨s, rfl⟩ := renderMissingKeywords_ok_shape _ _ hr
      rw [hr] at h
      simp only [Prod.mk.injEq, Except.ok.injEq] at h
      obtain ⟨h1, h2⟩ := h
      subst h2
      exact ⟨s, h1.symm⟩
  | null => simp [displayResults] at h
  | bool b => simp [displayResults] at h
  | num m e => simp [displayResults] at h
  | str s => simp [displayResults] at h
  | arr l => simp [displayResults] at h
  | nanV => simp [displayResults] at h
  | infV b => simp [displayResults] at h

theorem displayResults_error_shape (rj : Json) (devs : List UIEvent)
    (e : String) (h : displayResults rj = (devs, .error e)) :
    devs = [] ∨
      ∃ v, devs = [.metricE "Match Score" v,
                   .subheaderMsg "Missing Keywords"] := by
  cases rj with
  | obj kvs =>
    simp only [displayResults] at h
    cases hr : renderMissingKeywords (objGet kvs "MissingKeywords" (.arr []))
      with
    | error e2 =>
      rw [hr] at h
      simp only [Prod.mk.injEq] at h
      exact Or.inr ⟨_, h.1.symm⟩
    | ok ev => rw [hr] at h; simp at h
  | null => exact Or.inl (congrArg Prod.fst h).symm
  | bool b => exact Or.inl (congrArg Prod.fst h).symm
  | num m ex => exact Or.inl (congrArg Prod.fst h).symm
  | str s => exact Or.inl (congrArg Prod.fst h).symm
  | arr l => exact Or.inl (congrArg Prod.fst h).symm
  | nanV => exact Or.inl (congrArg Prod.fst h).symm
  | infV b => exact Or.inl (congrArg Prod.fst h).symm

theorem processing_after (inp : RunInput) :
    (main inp).processing = (inp.processing0 && !(main inp).guardSet) := by
  unfold main
  by_cases hC : strOptFalsy (get_api_key inp.secretsKey inp.envKey) = true
  · simp [hC]
  · simp only [hC, ite_false]
    repeat' split
    all_goals simp

/-!  ## Claim theorems  -/

/-- C1: when the model response does not parse as valid JSON, the handler
emits exactly the user-visible parse-error message, produces no
`AnalysisResult`, and emits none of the three output signals (match-score
metric, keyword list, profile summary). -/
theorem parse_failure_aborts (inp : RunInput)
    (hkey : strOptFalsy (get_api_key inp.secretsKey inp.envKey) = false)
    (hcfg : inp.configureError = none)
    (hclick : inp.buttonClicked = true) (hproc : inp.processing0 = false)
    (hjd : inp.jd ≠ "") (hfile : inp.uploadedFile = some ())
    (t : String) (hext : inp.extractResult = .ok t)
    (resp : String) (hresp : inp.geminiResult = .ok resp)
    (hparse : Json.parse resp = none) :
    (main inp).events = [.errorMsg "Error parsing response. Please try again."] ∧
    (main inp).result = none ∧
    (∀ l v, UIEvent.metricE l v ∉ (main inp).events) ∧
    (∀ s, UIEvent.writeStr s ∉ (main inp).events) ∧
    (∀ v, UIEvent.writeJson v ∉ (main inp).events) := by
  simp [main, hkey, hcfg, hclick, hproc, hjd, hfile, hext, hresp, hparse]

/-- Closed instance of `parse_failure_aborts` at the raw text `not json`. -/
theorem parse_failure_aborts_witness :
    (main (sampleRun "not json")).events =
      [.errorMsg "Error parsing response. Please try again."] ∧
    (main (sampleRun "not json")).result = none ∧
    (∀ l v, UIEvent.metricE l v ∉ (main (sampleRun "not json")).events) ∧
    (∀ s, UIEvent.writeStr s ∉ (main (sampleRun "not json")).events) ∧
    (∀ v, UIEvent.writeJson v ∉ (main (sampleRun "not json")).events) :=
  parse_failure_aborts (sampleRun "not json") rfl rfl rfl rfl
    (by decide) rfl "resume text" rfl "not json" rfl rfl

/-- C2: whenever an execution sets the in-flight guard
(`st.session_state.processing = True`), the guard is observed cleared when
the handler returns, on every exit path. -/
theorem guard_cleared_on_exit (inp : RunInput)
    (h : (main inp).guardSet = true) : (main inp).processing = false := by
  have hp := processing_after inp
  rw [h] at hp
  simpa using hp

/-- Closed instance of `guard_cleared_on_exit` on a run whose model call
raises. -/
theorem guard_cleared_on_exit_witness :
    (main { sampleRun "x" with geminiResult := .error "boom" }).guardSet = true ∧
    (main { sampleRun "x" with geminiResult := .error "boom" }).processing = false :=
  ⟨rfl, guard_cleared_on_exit _ rfl⟩

/-- An emitted event that reports a failure (`st.error` / `st.warning`). -/
def isErrOrWarn : UIEvent → Bool
  | .errorMsg _ => true
  | .warningMsg _ => true
  | _ => false

/-- The event carries one of the five error kinds of the design:
configuration (missing key / configure failure), validation (the two
warnings), extraction and transport (both surfaced by the catch-all
handler message), response format. -/
def IsFiveKind : UIEvent → Prop
  | .errorMsg m =>
      m = "API Key not found. Please check your configuration." ∨
      (∃ e, m = "Failed to configure API: " ++ e) ∨
      (∃ e, m = "An error occurred: " ++ e) ∨
      m = "Error parsing response. Please try again."
  | .warningMsg m =>
      m = "Please provide a job description." ∨
      m = "Please upload a resume in PDF format."
  | _ => False

/-- C3: every triggered run either completes with an `AnalysisResult` and
all three output signals and no failure event, or produces no result and
exactly one failure event, drawn from the five defined error kinds. -/
theorem pipeline_total_or_single_error (inp : RunInput)
    (hclick : inp.buttonClicked = true) (hproc : inp.processing0 = false) :
    (∃ a, (main inp).result = some a ∧
      ((main inp).events.filter isErrOrWarn) = [] ∧
      UIEvent.metricE "Match Score" a.jdMatch ∈ (main inp).events ∧
      (∃ s, UIEvent.writeStr s ∈ (main inp).events) ∧
      UIEvent.writeJson a.profileSummary ∈ (main inp).events) ∨
    ((main inp).result = none ∧
      ∃ ev, ((main inp).events.filter isErrOrWarn) = [ev] ∧ IsFiveKind ev) := by
  rcases inp with ⟨sk, ek, ce, p0, bc, jd, uf, ex, gr⟩
  simp only at hclick hproc
  subst hclick; subst hproc
  unfold main
  by_cases hC : strOptFalsy (get_api_key sk ek) = true
  · simp only [hC, ite_true]
    exact Or.inr ⟨by trivial,
      UIEvent.errorMsg "API Key not found. Please check your configuration.",
      by simp [isErrOrWarn], Or.inl rfl⟩
  · simp only [hC, ite_false]
    cases ce with
    | some msg =>
      exact Or.inr ⟨by trivial, UIEvent.errorMsg ("Failed to configure API: " ++ msg),
        by simp [isErrOrWarn], Or.inr (Or.inl ⟨msg, rfl⟩)⟩
    | none =>
      simp only [Bool.not_false, Bool.and_true, ite_true]
      by_cases hjd : jd = ""
      · simp only [hjd, ite_true]
        exact Or.inr ⟨by trivial, UIEvent.warningMsg "Please provide a job description.",
          by simp [isErrOrWarn], Or.inl rfl⟩
      · simp only [hjd, ite_false]
        cases uf with
        | none =>
          exact Or.inr ⟨by trivial, UIEvent.warningMsg "Please upload a resume in PDF format.",
            by simp [isErrOrWarn], Or.inr rfl⟩
        | some u =>
          cases ex with
          | error e =>
            exact Or.inr ⟨by trivial, UIEvent.errorMsg ("An error occurred: " ++ e),
              by simp [isErrOrWarn], Or.inr (Or.inr (Or.inl ⟨e, rfl⟩))⟩
          | ok t =>
            cases gr with
            | error e =>
              exact Or.inr ⟨by trivial, UIEvent.errorMsg ("An error occurred: " ++ e),
                by simp [isErrOrWarn], Or.inr (Or.inr (Or.inl ⟨e, rfl⟩))⟩
            | ok resp =>
              cases hp : Json.parse resp with
              | none =>
                simp only [hp]
                exact Or.inr ⟨by trivial,
                  UIEvent.errorMsg "Error parsing response. Please try again.",
                  by simp [isErrOrWarn], Or.inr (Or.inr (Or.inr rfl))⟩
              | some rj =>
                simp only [hp]
                rcases hd : displayResults rj with ⟨devs, res⟩
                cases res with
                | error e =>
                  simp only [hd]
                  refine Or.inr ⟨by trivial, UIEvent.errorMsg ("An error occurred: " ++ e),
                    ?_, Or.inr (Or.inr (Or.inl ⟨e, rfl⟩))⟩
                  rcases displayResults_error_shape rj devs e hd with rfl | ⟨v, rfl⟩ <;>
                    simp [isErrOrWarn]
                | ok a =>
                  simp only [hd]
                  obtain ⟨s, rfl⟩ := displayResults_ok_shape rj devs a hd
                  refine Or.inl ⟨a, rfl, ?_, ?_, ⟨s, ?_⟩, ?_⟩ <;>
                    simp [isErrOrWarn]

/-- Closed instance of `pipeline_total_or_single_error` on a fully
successful run. -/
theorem pipeline_total_witness :
    (∃ a, (main (sampleRun "\x7b\"Profile Summary\": \"ok\"\x7d")).result = some a ∧
      ((main (sampleRun "\x7b\"Profile Summary\": \"ok\"\x7d")).events.filter isErrOrWarn) = [] ∧
      UIEvent.metricE "Match Score" a.jdMatch ∈
        (main (sampleRun "\x7b\"Profile Summary\": \"ok\"\x7d")).events ∧
      (∃ s, UIEvent.writeStr s ∈
        (main (sampleRun "\x7b\"Profile Summary\": \"ok\"\x7d")).events) ∧
      UIEvent.writeJson a.profileSummary ∈
        (main (sampleRun "\x7b\"Profile Summary\": \"ok\"\x7d")).events) ∨
    ((main (sampleRun "\x7b\"Profile Summary\": \"ok\"\x7d")).result = none ∧
      ∃ ev, ((main (sampleRun "\x7b\"Profile Summary\": \"ok\"\x7d")).events.filter
        isErrOrWarn) = [ev] ∧ IsFiveKind ev) :=
  pipeline_total_or_single_error (sampleRun "\x7b\"Profile Summary\": \"ok\"\x7d") rfl rfl

/-- C4: on a parsed JSON object the three result fields are extracted by
key lookup with independent defaulting (`"N/A"`, `[]`,
`"No summary available"`); in particular the object holding only a
profile summary parses and yields the three defaults around it. -/
theorem field_defaulting (kvs : List (String × Json)) (devs : List UIEvent)
    (a : AnalysisResult) (h : displayResults (.obj kvs) = (devs, .ok a)) :
    ((objLookup kvs "JD Match" = none → a.jdMatch = .str "N/A") ∧
     (objLookup kvs "MissingKeywords" = none → a.missingKeywords = .arr []) ∧
     (objLookup kvs "Profile Summary" = none →
        a.profileSummary = .str "No summary available")) ∧
    Json.parse "\x7b\"Profile Summary\": \"ok\"\x7d" =
      some (.obj [("Profile Summary", .str "ok")]) ∧
    (displayResults (.obj [("Profile Summary", Json.str "ok")])).2 =
      .ok ⟨.str "N/A", .arr [], .str "ok"⟩ := by
  refine ⟨?_, rfl, rfl⟩
  have ha : a = ⟨objGet kvs "JD Match" (.str "N/A"),
                 objGet kvs "MissingKeywords" (.arr []),
                 objGet kvs "Profile Summary" (.str "No summary available")⟩ := by
    simp only [displayResults] at h
    cases hr : renderMissingKeywords (objGet kvs "MissingKeywords" (.arr []))
      with
    | error e => rw [hr] at h; simp at h
    | ok ev =>
      rw [hr] at h
      simp only [Prod.mk.injEq, Except.ok.injEq] at h
      exact h.2.symm
  subst ha
  exact ⟨fun hl => objLookup_none_objGet _ _ _ hl,
         fun hl => objLookup_none_objGet _ _ _ hl,
         fun hl => objLookup_none_objGet _ _ _ hl⟩

/-- Closed instance of `field_defaulting` at the one-key object, with the
two absent-key defaults discharged. -/
theorem field_defaulting_witness :
    (AnalysisResult.mk (Json.str "N/A") (Json.arr [])
        (Json.str "ok")).jdMatch = Json.str "N/A" ∧
    (AnalysisResult.mk (Json.str "N/A") (Json.arr [])
        (Json.str "ok")).missingKeywords = Json.arr [] ∧
    Json.parse "\x7b\"Profile Summary\": \"ok\"\x7d" =
      some (.obj [("Profile Summary", .str "ok")]) ∧
    (displayResults (.obj [("Profile Summary", Json.str "ok")])).2 =
      .ok ⟨.str "N/A", .arr [], .str "ok"⟩ :=
  let T := field_defaulting [("Profile Summary", Json.str "ok")]
    [.metricE "Match Score" (.str "N/A"), .subheaderMsg "Missing Keywords",
     .writeStr "No critical missing keywords found!",
     .subheaderMsg "Profile Summary", .writeJson (.str "ok")]
    ⟨.str "N/A", .arr [], .str "ok"⟩ rfl
  ⟨T.1.1 rfl, T.1.2.1 rfl, T.2.1, T.2.2⟩

/-- C5: the fully populated concrete response parses and every present
value is extracted and rendered unchanged (keywords joined with a comma
separator). -/
theorem concrete_extraction_unchanged :
    Json.parse "\x7b\"JD Match\": \"82%\", \"MissingKeywords\": [\"Docker\",\"Kubernetes\"], \"Profile Summary\": \"Strong backend profile\"\x7d" =
      some (.obj [("JD Match", .str "82%"),
                  ("MissingKeywords", .arr [.str "Docker", .str "Kubernetes"]),
                  ("Profile Summary", .str "Strong backend profile")]) ∧
    displayResults (.obj [("JD Match", .str "82%"),
                  ("MissingKeywords", .arr [.str "Docker", .str "Kubernetes"]),
                  ("Profile Summary", .str "Strong backend profile")]) =
      ([.metricE "Match Score" (.str "82%"), .subheaderMsg "Missing Keywords",
        .writeStr "Docker, Kubernetes", .subheaderMsg "Profile Summary",
        .writeJson (.str "Strong backend profile")],
       .ok ⟨.str "82%", .arr [.str "Docker", .str "Kubernetes"],
            .str "Strong backend profile"⟩) :=
  ⟨rfl, rfl⟩

/-- C6: an empty job description or a missing resume file short-circuits
with a warning before the guard is set and before any extractor, prompt or
model call. -/
theorem empty_input_short_circuit (inp : RunInput)
    (hkey : strOptFalsy (get_api_key inp.secretsKey inp.envKey) = false)
    (hcfg : inp.configureError = none)
    (hclick : inp.buttonClicked = true) (hproc : inp.processing0 = false)
    (hval : inp.jd = "" ∨ inp.uploadedFile = none) :
    (∃ w, (main inp).events = [.warningMsg w]) ∧
    (main inp).guardSet = false ∧
    (main inp).processing = false ∧
    (main inp).extractCalls = 0 ∧ (main inp).promptCalls = 0 ∧
    (main inp).modelCalls = 0 ∧ (main inp).result = none := by
  rcases hval with hjd | hf
  · refine ⟨⟨"Please provide a job description.", ?_⟩, ?_, ?_, ?_, ?_, ?_, ?_⟩ <;>
      simp [main, hkey, hcfg, hclick, hproc, hjd]
  · by_cases hjd : inp.jd = ""
    · refine ⟨⟨"Please provide a job description.", ?_⟩, ?_, ?_, ?_, ?_, ?_, ?_⟩ <;>
        simp [main, hkey, hcfg, hclick, hproc, hjd]
    · refine ⟨⟨"Please upload a resume in PDF format.", ?_⟩, ?_, ?_, ?_, ?_, ?_, ?_⟩ <;>
        simp [main, hkey, hcfg, hclick, hproc, hjd, hf]

/-- A triggered run whose job description is empty. -/
def emptyJdRun : RunInput := { sampleRun "x" with jd := "" }

/-- Closed instance of `empty_input_short_circuit` on the empty job
description. -/
theorem empty_input_short_circuit_witness :
    (∃ w, (main emptyJdRun).events = [.warningMsg w]) ∧
    (main emptyJdRun).guardSet = false ∧
    (main emptyJdRun).processing = false ∧
    (main emptyJdRun).extractCalls = 0 ∧ (main emptyJdRun).promptCalls = 0 ∧
    (main emptyJdRun).modelCalls = 0 ∧ (main emptyJdRun).result = none :=
  empty_input_short_circuit emptyJdRun rfl rfl rfl rfl (Or.inl rfl)

/-- C7: the credential is resolved secret-store first, then environment
variable; when neither source yields one the run fails fast with the
configuration error, before `configure_genai` and before any model call. -/
theorem credential_priority :
    (∀ (k : String) (e : Option String), get_api_key (some k) e = some k) ∧
    (∀ e : Option String, get_api_key none e = e) ∧
    (∀ inp : RunInput, inp.secretsKey = none → inp.envKey = none →
      get_api_key inp.secretsKey inp.envKey = none ∧
      (main inp).events =
        [.errorMsg "API Key not found. Please check your configuration."] ∧
      (main inp).configureCalls = 0 ∧ (main inp).modelCalls = 0 ∧
      (main inp).result = none) := by
  refine ⟨fun k e => rfl, fun e => rfl, fun inp h1 h2 => ?_⟩
  have hk : get_api_key inp.secretsKey inp.envKey = none := by
    rw [h1, h2]; rfl
  have hf : strOptFalsy (get_api_key inp.secretsKey inp.envKey) = true := by
    rw [hk]; rfl
  refine ⟨hk, ?_, ?_, ?_, ?_⟩ <;> simp [main, hf]

/-- A triggered run where both credential sources come up empty. -/
def noKeyRun : RunInput :=
  { sampleRun "x" with secretsKey := none, envKey := none }

/-- Closed instance of `credential_priority` at concrete credentials and
the no-credential run. -/
theorem credential_priority_witness :
    get_api_key (some "k") (some "v") = some "k" ∧
    get_api_key none (some "v") = some "v" ∧
    (get_api_key noKeyRun.secretsKey noKeyRun.envKey = none ∧
     (main noKeyRun).events =
       [.errorMsg "API Key not found. Please check your configuration."] ∧
     (main noKeyRun).configureCalls = 0 ∧ (main noKeyRun).modelCalls = 0 ∧
     (main noKeyRun).result = none) :=
  ⟨credential_priority.1 "k" (some "v"), credential_priority.2.1 (some "v"),
   credential_priority.2.2 noKeyRun rfl rfl⟩

theorem asStrList_map_str (l : List String) :
    asStrList (l.map Json.str) = some l := by
  induction l with
  | nil => rfl
  | cons a t ih => simp [asStrList, ih]

/-- C8: a decoded keyword sequence renders as the strings joined with
a comma-space separator when non-empty, and as the fixed
no-missing-keywords message when empty. -/
theorem keyword_list_rendering (l : List String) :
    renderMissingKeywords (.arr (l.map .str)) =
      .ok (.writeStr (if l.isEmpty then "No critical missing keywords found!"
                      else String.intercalate ", " l)) := by
  cases l with
  | nil => rfl
  | cons a t =>
    simp [renderMissingKeywords, Json.truthy, joinPy, asStrList, asStrList_map_str]

/-- C9: a present-but-falsy `MissingKeywords` value (empty list, empty
string, null) renders as the fixed message, and a present non-empty string
renders as its characters joined with the comma-space separator. -/
theorem keyword_truthiness_rendering (s : String) :
    renderMissingKeywords (.arr []) =
      .ok (.writeStr "No critical missing keywords found!") ∧
    renderMissingKeywords (.str "") =
      .ok (.writeStr "No critical missing keywords found!") ∧
    renderMissingKeywords .null =
      .ok (.writeStr "No critical missing keywords found!") ∧
    (s ≠ "" → renderMissingKeywords (.str s) =
      .ok (.writeStr (String.intercalate ", " (s.toList.map Char.toString)))) := by
  refine ⟨rfl, rfl, rfl, fun hs => ?_⟩
  have ht : Json.truthy (.str s) = true := by simp [Json.truthy, hs]
  simp [renderMissingKeywords, ht, joinPy]

/-- Closed instance of `keyword_truthiness_rendering` at the string
`"ab"`, whose characters render joined. -/
theorem keyword_truthiness_rendering_witness :
    renderMissingKeywords (.arr []) =
      .ok (.writeStr "No critical missing keywords found!") ∧
    renderMissingKeywords (.str "ab") = .ok (.writeStr "a, b") :=
  ⟨(keyword_truthiness_rendering "ab").1,
   (keyword_truthiness_rendering "ab").2.2.2 (by decide)⟩

/-- C10: a present-but-empty credential from either source is rejected
exactly like an absent one: the configuration error is shown and neither
`configure_genai` nor the model is called. -/
theorem empty_credential_rejected (inp : RunInput)
    (h : inp.secretsKey = some "" ∨
         (inp.secretsKey = none ∧ inp.envKey = some "")) :
    (main inp).events =
      [.errorMsg "API Key not found. Please check your configuration."] ∧
    (main inp).guardSet = false ∧
    (main inp).configureCalls = 0 ∧ (main inp).modelCalls = 0 ∧
    (main inp).result = none := by
  have hf : strOptFalsy (get_api_key inp.secretsKey inp.envKey) = true := by
    rcases h with h1 | ⟨h1, h2⟩
    · rw [h1]; rfl
    · rw [h1, h2]; rfl
  refine ⟨?_, ?_, ?_, ?_, ?_⟩ <;> simp [main, hf]

/-- A triggered run whose secret store yields the empty string. -/
def emptySecretRun : RunInput := { sampleRun "x" with secretsKey := some "" }

/-- Closed instance of `empty_credential_rejected` at the empty-string
secret. -/
theorem empty_credential_rejected_witness :
    (main emptySecretRun).events =
      [.errorMsg "API Key not found. Please check your configuration."] ∧
    (main emptySecretRun).guardSet = false ∧
    (main emptySecretRun).configureCalls = 0 ∧
    (main emptySecretRun).modelCalls = 0 ∧
    (main emptySecretRun).result = none :=
  empty_credential_rejected emptySecretRun (Or.inl rfl)

end ATS
